import Mathlib

/-!
Verification development for `strawberry_autograph` (src/strawberry_autograph/main.py),
a generator of GraphQL operation text from strawberry schema introspection data.

The Python source is shallowly embedded below: Python `dict`s (insertion-ordered,
last-assignment-wins) become association lists built with `pyDictInsert`; Python
strings become Lean `String`; values whose runtime type matters (`serialize_scalar`
returns an enum's raw `.value` unchanged, which need not be a `str`) become `PyObj`;
code that can raise becomes `Except String`.
-/

namespace StrawberryAutograph

/-- Python dict assignment `d[k] = v`: if the key is present, the value is replaced
in place (insertion order kept); otherwise the pair is appended. -/
def pyDictInsert (d : List (String × α)) (k : String) (v : α) : List (String × α) :=
  if d.any (fun p => p.1 = k) then
    d.map (fun p => if p.1 = k then (k, v) else p)
  else
    d ++ [(k, v)]

/-- Python `dict(pairs)`: sequential dict assignment starting from `{}`. -/
def pyDictOfPairs (pairs : List (String × α)) : List (String × α) :=
  pairs.foldl (fun d p => pyDictInsert d p.1 p.2) []

/-- Python `s.split(sep)` for a single separator character (keeps empty pieces,
`''.split('_') == ['']`). -/
def pySplitChar (sep : Char) : List Char → List (List Char)
  | [] => [[]]
  | c :: rest =>
    match pySplitChar sep rest with
    | [] => [[]]
    | cur :: parts => if c = sep then [] :: cur :: parts else (c :: cur) :: parts

/-- `str.capitalize` (ASCII): first character uppercased, the rest lowercased. -/
def pyCapitalize : List Char → List Char
  | [] => []
  | c :: cs => c.toUpper :: cs.map Char.toLower

/-- Models `strawberry.utils.str_converters.to_camel_case`, an external collaborator
of the source (naming-convention conversion is out of the repository's core): split
on underscores, keep the first component, capitalize the rest (an empty component
stands for a literal underscore). -/
def toCamelCase (snakeStr : String) : String :=
  match pySplitChar '_' snakeStr.data with
  | [] => ""
  | c0 :: rest =>
    String.mk (c0 ++ (rest.map (fun x => if x.isEmpty then ['_'] else pyCapitalize x)).flatten)

/-- One step of snake-casing: emit an underscore before an uppercase letter that
is not at the start and either precedes a lowercase letter or follows a
lowercase letter or digit; every character is lowercased.  `prev` is the
character to the left. -/
def snakeCaseAux (prev : Char) : List Char → List Char
  | [] => []
  | c :: rest =>
    if c.isUpper ∧ ((rest.headD ' ').isLower ∨ prev.isLower ∨ prev.isDigit) then
      '_' :: c.toLower :: snakeCaseAux c rest
    else
      c.toLower :: snakeCaseAux c rest

/-- Models `strawberry.utils.str_converters.to_snake_case`, an external collaborator
of the source: the combined effect of its two regex passes
(`"(.)([A-Z][a-z]+)"` and `"([a-z0-9])([A-Z])"`, both replaced by `\1_\2`)
followed by `.lower()`. -/
def toSnakeCase (name : String) : String :=
  match name.data with
  | [] => ""
  | c :: rest => String.mk (c.toLower :: snakeCaseAux c rest)

/-- Four lowercase hex digits, as used by `json.dumps` `\uXXXX` escapes. -/
def hexFour (n : Nat) : List Char :=
  [Nat.digitChar (n / 4096 % 16), Nat.digitChar (n / 256 % 16),
   Nat.digitChar (n / 16 % 16), Nat.digitChar (n % 16)]

/-- Escape of one character inside a `json.dumps` string literal
(`ensure_ascii=True`: everything outside `0x20..0x7e` is `\uXXXX`-escaped,
code points above `0xffff` as a surrogate pair). -/
def jsonEscapeChar (c : Char) : List Char :=
  if c = '"' then ['\\', '"']
  else if c = '\\' then ['\\', '\\']
  else if c = '\n' then ['\\', 'n']
  else if c = '\r' then ['\\', 'r']
  else if c = '\t' then ['\\', 't']
  else if c.val = 8 then ['\\', 'b']
  else if c.val = 12 then ['\\', 'f']
  else if c.val < 32 then '\\' :: 'u' :: hexFour c.val.toNat
  else if c.val < 127 then [c]
  else if c.val ≤ 65535 then '\\' :: 'u' :: hexFour c.val.toNat
  else
    ('\\' :: 'u' :: hexFour (55296 + (c.val.toNat - 65536) / 1024)) ++
      ('\\' :: 'u' :: hexFour (56320 + (c.val.toNat - 65536) % 1024))

/-- `json.dumps` of a Python `str`: a double-quoted, escaped string literal. -/
def jsonDumpsString (s : String) : String :=
  String.mk ('"' :: (s.data.flatMap jsonEscapeChar ++ ['"']))

/-- A Python runtime object, as far as `serialize_scalar`'s result is concerned:
every branch but the enum one returns a `str`; the enum branch returns the raw
`.value`, which may be any object. -/
inductive PyObj where
  | pystr (s : String)
  | pyint (n : Int)
  | pybool (b : Bool)
  | pynone
deriving DecidableEq, Repr

/-- Whether a Python object is a `str`. -/
def PyObj.isStr : PyObj → Bool
  | .pystr _ => true
  | _ => false

/-- Python `str(obj)`, as applied by f-string interpolation. -/
def pyToString : PyObj → String
  | .pystr s => s
  | .pyint n => toString n
  | .pybool b => if b then "True" else "False"
  | .pynone => "None"

/-- An enum member: `serialize_scalar` only ever reads its `.value`. -/
structure PyEnumMember where
  value : PyObj
deriving DecidableEq, Repr

/-- The scalar universe of `InputScalars` in the source (main.py lines 25-34):
`strawberry.UNSET`, `None`, `Enum`, `datetime`, `str`, `int`, `float`, `bool`.
A `datetime` is carried as the text its `.isoformat()` produces, and a `float`
as the canonical numeric text `json.dumps` emits for it (the stdlib ISO
formatter and the shortest-roundtrip float formatter are external to this
repository; only the texts they hand to the serializer matter here). -/
inductive InputScalars where
  | unset
  | pynone
  | enum (m : PyEnumMember)
  | datetime (isoformat : String)
  | str (s : String)
  | int (n : Int)
  | float (jsonRepr : String)
  | bool (b : Bool)
deriving DecidableEq, Repr

/-- `serialize_scalar` (main.py lines 43-54), branch for branch:
`str`/`int`/`float`/`bool`/`NoneType` go through `json.dumps` (for a float the
result is its canonical numeric text); `datetime` through
`json.dumps(scalar.isoformat())`; an `Enum` member returns its raw `.value`
unchanged; `strawberry.UNSET` returns `json.dumps(None)`. -/
def serialize_scalar : InputScalars → PyObj
  | .str s => .pystr (jsonDumpsString s)
  | .int n => .pystr (toString n)
  | .float r => .pystr r
  | .bool b => .pystr (if b then "true" else "false")
  | .pynone => .pystr ("null")
  | .datetime iso => .pystr (jsonDumpsString iso)
  | .enum m => m.value
  | .unset => .pystr ("null")

/-- `ArbitraryInput` in the source: a scalar, a list of inputs, or a `dict` of
inputs (carried as its insertion-ordered item list). -/
inductive ArbitraryInput where
  | scalar (s : InputScalars)
  | list (elems : List ArbitraryInput)
  | dict (pairs : List (String × ArbitraryInput))
deriving Repr

mutual

/-- `GQLExecutableTemplate.serialize_input` (main.py lines 174-195): a dict
renders as `\x7b k1: v1, ... \x7d` with camel-cased keys, a list as
`[ v1, ... ]`, anything else through `serialize_scalar`.  The f-string that
builds each `key: value` pair coerces the recursive result with Python `str`,
hence `pyToString`. -/
def serialize_input : ArbitraryInput → PyObj
  | .dict pairs =>
    .pystr ("\x7b " ++ String.intercalate (", ") (serializeInputPairs pairs) ++ " \x7d")
  | .list elems =>
    .pystr ("[ " ++ String.intercalate (", ") (serializeInputElems elems) ++ " ]")
  | .scalar sc => serialize_scalar sc

/-- The generator `(f'\x7bcamelkey\x7d: \x7bstrvalue\x7d' for ...)` over a dict's
items, in order. -/
def serializeInputPairs : List (String × ArbitraryInput) → List String
  | [] => []
  | (pkey, pvalue) :: rest =>
    (toCamelCase pkey ++ ": " ++ pyToString (serialize_input pvalue))
      :: serializeInputPairs rest

/-- The generator over a list's elements, in order. -/
def serializeInputElems : List ArbitraryInput → List String
  | [] => []
  | element :: rest =>
    pyToString (serialize_input element) :: serializeInputElems rest

end

/-- `FieldTree = dict[str, FieldTree]` (main.py line 24), carried as the dict's
insertion-ordered item list. -/
inductive FieldTree where
  | node (entries : List (String × FieldTree))
deriving Repr

/-- The item list of a `FieldTree` dict. -/
def FieldTree.entries : FieldTree → List (String × FieldTree)
  | .node l => l

/-- Python truthiness of a `FieldTree` dict (`if nested_fields:`). -/
def FieldTree.truthy : FieldTree → Bool
  | .node l => !l.isEmpty

/-- A Python type annotation as inspected by `unwrap_strawberry_type`:
a scalar/leaf type (no `__annotations__`), a class with `__annotations__`
(ordered field name to annotation pairs), `typing.Union[...]`, `list[...]`,
or `type(None)`. -/
inductive PyAnn where
  | scalar (typeName : String)
  | cls (annots : List (String × PyAnn))
  | union (args : List PyAnn)
  | pylist (arg : PyAnn)
  | noneType
deriving Repr

/-- The identity test `typ is type(None)`. -/
def PyAnn.isNone : PyAnn → Bool
  | .noneType => true
  | _ => false

mutual

/-- `unwrap_strawberry_type` (main.py lines 77-93): read `__annotations__`
(empty for anything that is not a class), and for each field assign
`tree[to_camel_case(field_name)] = unwrap_strawberry_type(unwrapped field type)`
in order.  `StopIteration` from the union case propagates. -/
def unwrap_strawberry_type : PyAnn → Except String FieldTree
  | .cls annots =>
    (unwrapAnnotFields annots).map (fun prs => FieldTree.node (pyDictOfPairs prs))
  | _ => .ok (.node [])

/-- The `for field_name, field_type in type_annotations.items()` loop body:
unwrap one `Union`/`list` layer, then recurse. -/
def unwrapAnnotFields : List (String × PyAnn) → Except String (List (String × FieldTree))
  | [] => .ok []
  | (fieldName, fieldType) :: rest => do
    let sub ← unwrapFieldAnnot fieldType
    let tail ← unwrapAnnotFields rest
    .ok ((toCamelCase fieldName, sub) :: tail)

/-- One field's treatment: `Union` origin picks the first argument that is not
`type(None)` (raising `StopIteration` if the generator is exhausted), `list`
origin picks its single argument, anything else is used as is; the picked type
then goes through `unwrap_strawberry_type`. -/
def unwrapFieldAnnot : PyAnn → Except String FieldTree
  | .union args => unwrapFirstNonNone args
  | .pylist arg => unwrap_strawberry_type arg
  | .cls annots =>
    (unwrapAnnotFields annots).map (fun prs => FieldTree.node (pyDictOfPairs prs))
  | .scalar _ => .ok (.node [])
  | .noneType => .ok (.node [])

/-- `next(typ for typ in get_args(field_type) if typ is not type(None))`,
followed by the recursive `unwrap_strawberry_type` call on the picked member. -/
def unwrapFirstNonNone : List PyAnn → Except String FieldTree
  | [] => .error ("StopIteration")
  | a :: rest => if a.isNone then unwrapFirstNonNone rest else unwrap_strawberry_type a

end

/-- A strawberry model class as a union member: `unwrap_strawberry_type` reads its
`__annotations__`, and `fragment_tree` reads `__strawberry_definition__.name`. -/
structure StrawberryModel where
  defName : String
  annots : List (String × PyAnn)

/-- The model class seen as an annotation target. -/
def StrawberryModel.asAnn (m : StrawberryModel) : PyAnn := .cls m.annots

/-- The response type descriptor stored on a strawberry field: a chain of
wrapping modifiers (`StrawberryOptional`/`StrawberryList`, which expose
`of_type`), ending at either a `StrawberryUnion` (which exposes `types`) or a
plain object type (which does not). -/
inductive SResponseType where
  | wrapper (ofType : SResponseType)
  | union (types : List StrawberryModel)
  | plain (m : StrawberryModel)

/-- The `while inner_type := getattr(response_type, 'of_type', None)` loop. -/
def unwrapResponseOfType : SResponseType → SResponseType
  | .wrapper ofType => unwrapResponseOfType ofType
  | t => t

/-- `GQLExecutableTemplate.fragment_tree` (main.py lines 152-164): unwrap the
wrapper chain, read `response_type.types` (an `AttributeError` when the
response is a plain, non-union type), map `unwrap_strawberry_type` over the
members and zip with their `__strawberry_definition__.name`s into a dict. -/
def fragment_tree (responseType : SResponseType) : Except String FieldTree :=
  match unwrapResponseOfType responseType with
  | .union responseModels => do
    let fragmentTrees ← responseModels.mapM (fun m => unwrap_strawberry_type m.asAnn)
    let fragmentNames := responseModels.map StrawberryModel.defName
    .ok (.node (pyDictOfPairs (fragmentNames.zip fragmentTrees)))
  | _ => .error ("AttributeError: types")

/-- The type descriptor reachable from an argument field descriptor: a chain of
wrapping modifiers exposing `of_type`, ending at either an input-object type
exposing `fields` (each subfield again an argument descriptor, i.e. an optional
type) or a leaf type exposing no `fields`.  An argument descriptor itself is
`Option SInputType`: `getattr(field, 'type', None)`. -/
inductive SInputType where
  | wrapper (ofType : SInputType)
  | obj (fields : List (String × Option SInputType))
  | leaf

/-- The `while core_field := getattr(field_type, 'of_type', None)` loop. -/
def unwrapInputOfType : SInputType → SInputType
  | .wrapper ofType => unwrapInputOfType ofType
  | t => t

/-- `getattr(field_type, 'fields', {})`. -/
def inputFields : SInputType → List (String × Option SInputType)
  | .obj fields => fields
  | _ => []

mutual

/-- `parse_input_tree` (main.py lines 57-74): a descriptor with no `type`
becomes the leaf `{field_name: {}}`; otherwise the wrapper chain is unwrapped
and the subfield dicts' items are chained into one dict under `field_name`. -/
def parse_input_tree (fieldName : String) (field : Option SInputType) : FieldTree :=
  match field with
  | none => FieldTree.node [(fieldName, FieldTree.node [])]
  | some fieldType => parseUnwrapped fieldName fieldType

/-- The body after the `None` check: the `while` loop unwrapping `of_type`
fused with `getattr(field_type, 'fields', {})` (an `obj` exposes its `fields`,
a `leaf` exposes none). -/
def parseUnwrapped (fieldName : String) : SInputType → FieldTree
  | .wrapper ofType => parseUnwrapped fieldName ofType
  | .obj fields =>
    FieldTree.node [(fieldName, FieldTree.node (pyDictOfPairs (parseSubfieldItems fields)))]
  | .leaf => FieldTree.node [(fieldName, FieldTree.node [])]

/-- `chain.from_iterable(parse_input_tree(fname, subfield).items() for ...)`. -/
def parseSubfieldItems : List (String × Option SInputType) → List (String × FieldTree)
  | [] => []
  | (fname, subfield) :: rest =>
    (parse_input_tree fname subfield).entries ++ parseSubfieldItems rest

end

/-- `parseUnwrapped` agrees with the literal source text
`dict(chain(...(getattr(field_type, 'fields', {}))))` after the `while` loop. -/
theorem parseUnwrapped_eq (fieldName : String) : (t : SInputType) →
    parseUnwrapped fieldName t = FieldTree.node [(fieldName,
      FieldTree.node (pyDictOfPairs (parseSubfieldItems (inputFields (unwrapInputOfType t))))) ]
  | .wrapper ofType => by
    simpa [parseUnwrapped, unwrapInputOfType] using parseUnwrapped_eq fieldName ofType
  | .obj fields => by simp [parseUnwrapped, unwrapInputOfType, inputFields]
  | .leaf => by simp [parseUnwrapped, unwrapInputOfType, inputFields, parseSubfieldItems, pyDictOfPairs]

/-- `GQLExecutableTemplate.input_tree` (main.py lines 143-150): chain the items
of `parse_input_tree(argname, argfield)` over the operation's argument dict into
one dict. -/
def input_tree (args : List (String × Option SInputType)) : FieldTree :=
  FieldTree.node (pyDictOfPairs (parseSubfieldItems args))

/-- `ROOT_DEPTH` (main.py line 40). -/
def ROOT_DEPTH : Nat := 1

/-- `'\t' * depth`. -/
def tabIndent (depth : Nat) : String :=
  String.mk (List.replicate depth '\t')

mutual

/-- `GQLExecutableTemplate._serialize_fragment_tree_lines` (main.py lines
203-225); the default argument is `depth=ROOT_DEPTH`. -/
def serialize_fragment_tree_lines : FieldTree → Nat → List String
  | FieldTree.node entries, depth => fragmentEntryLines entries depth

/-- The `for field_name, nested_fields in tree.items()` loop of
`_serialize_fragment_tree_lines`: one line per field, tab-indented by depth,
`... on ` prefixed exactly when `depth == ROOT_DEPTH`; a truthy (non-empty)
subtree opens a brace block rendered at `depth + 1`. -/
def fragmentEntryLines : List (String × FieldTree) → Nat → List String
  | [], _ => []
  | (fieldName, nestedFields) :: rest, depth =>
    let indent := tabIndent depth
    let prefixForRoot := if depth = ROOT_DEPTH then "... on " else ""
    let line := indent ++ prefixForRoot ++ fieldName
    (if nestedFields.truthy then
      ((line ++ " \x7b") :: serialize_fragment_tree_lines nestedFields (depth + 1))
        ++ [indent ++ "\x7d"]
    else
      [line]) ++ fragmentEntryLines rest depth

end

/-- `GQLExecutableTemplate.serialized_fragment_tree` (main.py lines 166-172). -/
def serialized_fragment_tree (tree : FieldTree) : String :=
  String.intercalate ("\n") (serialize_fragment_tree_lines tree ROOT_DEPTH)

/-- `GQLExecutableTemplate.generate_query` (main.py lines 130-141), with the
operation's kind, wire name and cached serialized fragment tree passed in.
The keyword arguments arrive as an insertion-ordered dict; `_try_asdict` has
already happened in the embedding (composite objects enter as dicts). -/
def generate_query (reqtype name serializedFragTree : String)
    (inputs : List (String × ArbitraryInput)) : String :=
  let inputsString := pyToString (serialize_input (ArbitraryInput.dict
    (pyDictOfPairs (inputs.map (fun p => (toCamelCase p.1, p.2))))))
  let operationString :=
    if inputsString ≠ "" then
      reqtype ++ " " ++ name ++ "(" ++ inputsString ++ ")"
    else
      reqtype ++ " " ++ name
  operationString ++ " \x7b\n" ++ serializedFragTree ++ "\n\x7d"

/-- `GQLExecutableTemplate.__str__` (main.py lines 124-128), with
`method_name = to_snake_case(name)` from `__init__` (line 112) and the keys of
the cached `input_tree`. -/
def template_str (reqtype wireName : String) (inputTree : FieldTree) : String :=
  let args := String.intercalate (", ") (inputTree.entries.map (fun p => toSnakeCase p.1))
  let args := if args ≠ "" then "(" ++ args ++ ")" else ""
  reqtype ++ " " ++ toSnakeCase wireName ++ args

/-! ## Helper lemmas -/

theorem jsonEscapeChar_length_pos (c : Char) : 1 ≤ (jsonEscapeChar c).length := by
  unfold jsonEscapeChar
  repeat' split
  all_goals simp [hexFour]

theorem flatMap_jsonEscapeChar_length (l : List Char) :
    l.length ≤ (l.flatMap jsonEscapeChar).length := by
  induction l with
  | nil => simp
  | cons c rest ih =>
    have h := jsonEscapeChar_length_pos c
    simp only [List.flatMap_cons, List.length_append, List.length_cons]
    omega

theorem jsonDumpsString_ne_self (s : String) : jsonDumpsString s ≠ s := by
  intro h
  have hlen := congrArg String.length h
  rw [jsonDumpsString, String.length_mk] at hlen
  have hflat := flatMap_jsonEscapeChar_length s.data
  have hs : s.length = s.data.length := rfl
  simp only [List.length_cons, List.length_append, List.length_cons,
    List.length_nil] at hlen
  omega

mutual

/-- Stated from the spec's words for the non-root case of the fragment
renderer ("at any deeper depth, no prefix is ever applied"): the same
rendering but with no inline-fragment prefix at any depth.  Used only to
compare with `serialize_fragment_tree_lines` below the root. -/
def no_prefix_tree_lines : FieldTree → Nat → List String
  | FieldTree.node entries, depth => noPrefixEntryLines entries depth

/-- The per-entry loop of `no_prefix_tree_lines`. -/
def noPrefixEntryLines : List (String × FieldTree) → Nat → List String
  | [], _ => []
  | (fieldName, nestedFields) :: rest, depth =>
    let indent := tabIndent depth
    let line := indent ++ fieldName
    (if nestedFields.truthy then
      ((line ++ " \x7b") :: no_prefix_tree_lines nestedFields (depth + 1))
        ++ [indent ++ "\x7d"]
    else
      [line]) ++ noPrefixEntryLines rest depth

end

mutual

theorem tree_lines_no_prefix_deep : (tree : FieldTree) → (depth : Nat) →
    ROOT_DEPTH < depth →
    serialize_fragment_tree_lines tree depth = no_prefix_tree_lines tree depth
  | FieldTree.node entries, depth, h => by
    rw [serialize_fragment_tree_lines, no_prefix_tree_lines]
    exact entry_lines_no_prefix_deep entries depth h

theorem entry_lines_no_prefix_deep : (entries : List (String × FieldTree)) →
    (depth : Nat) → ROOT_DEPTH < depth →
    fragmentEntryLines entries depth = noPrefixEntryLines entries depth
  | [], _, _ => rfl
  | (fieldName, nestedFields) :: rest, depth, h => by
    have h1 := tree_lines_no_prefix_deep nestedFields (depth + 1) (by omega)
    have h2 := entry_lines_no_prefix_deep rest depth h
    have hne : ¬ depth = ROOT_DEPTH := by omega
    rw [fragmentEntryLines, noPrefixEntryLines]
    simp only [if_neg hne, String.append_empty, h1, h2]

end

theorem unwrapFirstNonNone_eq_of_find (args : List PyAnn) (t : PyAnn)
    (h : args.find? (fun a => !a.isNone) = some t) :
    unwrapFirstNonNone args = unwrap_strawberry_type t := by
  induction args with
  | nil => simp [List.find?] at h
  | cons a rest ih =>
    rw [List.find?] at h
    by_cases ha : a.isNone = true
    · simp only [ha, Bool.not_true] at h
      rw [unwrapFirstNonNone, if_pos ha]
      exact ih h
    · simp only [Bool.not_eq_true] at ha
      simp only [ha, Bool.not_false, Option.some.injEq] at h
      rw [unwrapFirstNonNone, if_neg (by simp [ha])]
      rw [h]

/-! ## Claims -/

/-- Claim C1, counterexample: for the plain (non-union) object response type
`User {id, name}`, building the fragment tree does not succeed: it stops with
the attribute error raised by reading `response_type.types`. -/
theorem C1_counterexample :
    fragment_tree (SResponseType.plain ⟨"User",
        [("id", PyAnn.scalar "int"), ("name", PyAnn.scalar "str")]⟩) =
      Except.error ("AttributeError: types") := by
  rfl

/-- Claim C1 (amended): when an operation's response type is a plain
(non-union) object type, building the fragment tree fails with an attribute
error — `fragment_tree` unconditionally reads the union member list `types`,
which a plain object type does not expose — so no operation text is generated
for such a response type at all. -/
theorem C1_plain_response_fragment_tree_fails (m : StrawberryModel) :
    fragment_tree (SResponseType.plain m) = Except.error ("AttributeError: types") := by
  rfl

/-- Claim C3: the claim states that a zero-argument operation omits the
parenthesized argument list entirely; in the code `serialize_input({})`
returns the truthy string `\x7b  \x7d`, so the omission branch of
`generate_query` is unreachable and the header still carries a parenthesized
group.  The dead `else` branch shows the omission was the intent, so this is
recorded as a code bug; this theorem evaluates the code at the failing
input. -/
theorem C3_zero_args_still_parenthesized :
    generate_query ("query") ("ping") ("\tpong") [] =
      "query ping(\x7b  \x7d) \x7b\n\tpong\n\x7d" ∧
    generate_query ("query") ("ping") ("\tpong") [] ≠
      "query ping \x7b\n\tpong\n\x7d" := by
  constructor
  · rfl
  · decide

/-- Claim C4, counterexample: an argument descriptor with no type at all is
parsed without any error into the leaf entry `{field_name: {}}` — nothing is
raised or propagated. -/
theorem C4_counterexample :
    parse_input_tree ("argWithNoType") none =
      FieldTree.node [("argWithNoType", FieldTree.node [])] := by
  rfl

/-- Claim C4 (amended): when an argument descriptor is missing its type
entirely, input-tree building silently treats the argument as a leaf,
returning `{field_name: {}}`; no `SchemaIntrospectionError` (or any error)
exists in the code or is raised. -/
theorem C4_missing_type_is_silent_leaf (fieldName : String) :
    parse_input_tree fieldName none =
      FieldTree.node [(fieldName, FieldTree.node [])] := by
  rfl

/-- Claim C5: fragment rendering applies the `... on ` prefix only at the root
depth — at any depth beyond `ROOT_DEPTH` the rendering coincides with the
never-prefixed rendering, for every tree — and the union of `Admin{id}` and
`Guest{id, token}` renders as exactly two top-level inline-fragment blocks,
prefixed only at the root. -/
theorem C5_inline_fragments_only_at_root :
    (∀ (tree : FieldTree) (depth : Nat), ROOT_DEPTH < depth →
      serialize_fragment_tree_lines tree depth = no_prefix_tree_lines tree depth) ∧
    serialize_fragment_tree_lines
        (FieldTree.node [("Admin", FieldTree.node [("id", FieldTree.node [])]),
          ("Guest", FieldTree.node [("id", FieldTree.node []), ("token", FieldTree.node [])])])
        ROOT_DEPTH =
      ["\t... on Admin \x7b", "\t\tid", "\t\x7d",
       "\t... on Guest \x7b", "\t\tid", "\t\ttoken", "\t\x7d"] := by
  constructor
  · exact tree_lines_no_prefix_deep
  · rfl

/-- Claim C5, witness: the deep-depth half of the claim applied at depth 2 to a
concrete subtree. -/
theorem C5_witness :
    ROOT_DEPTH < 2 ∧
    serialize_fragment_tree_lines (FieldTree.node [("id", FieldTree.node [])]) 2 =
      no_prefix_tree_lines (FieldTree.node [("id", FieldTree.node [])]) 2 :=
  ⟨by decide, C5_inline_fragments_only_at_root.1
    (FieldTree.node [("id", FieldTree.node [])]) 2 (by decide)⟩

/-- Claim C6: serializing an enum member whose wire value is the text `s`
yields `s` itself as a bare identifier (no quoting), serializing the string
`s` yields the JSON-quoted string, and the two results are never equal — the
quoted form is always strictly longer. -/
theorem C6_enum_bare_vs_string_quoted (s : String) :
    serialize_scalar (.enum ⟨.pystr s⟩) = .pystr s ∧
    serialize_scalar (.str s) = .pystr (jsonDumpsString s) ∧
    serialize_scalar (.enum ⟨.pystr s⟩) ≠ serialize_scalar (.str s) := by
  refine ⟨rfl, rfl, ?_⟩
  intro h
  have hs : s = jsonDumpsString s := PyObj.pystr.inj h
  exact jsonDumpsString_ne_self s hs.symm

/-- Claim C6, witness: the three conjuncts at the concrete text `ACTIVE`. -/
theorem C6_witness :
    serialize_scalar (.enum ⟨.pystr ("ACTIVE")⟩) = .pystr ("ACTIVE") ∧
    serialize_scalar (.str ("ACTIVE")) = .pystr (jsonDumpsString ("ACTIVE")) ∧
    serialize_scalar (.enum ⟨.pystr ("ACTIVE")⟩) ≠ serialize_scalar (.str ("ACTIVE")) :=
  C6_enum_bare_vs_string_quoted ("ACTIVE")

/-- Claim C7, counterexample: the signature of a mutation wire-named `setName`
taking `newName` is `mutation set_name(new_name)` — the wire name and the
argument names are snake-cased — not `mutation setName(newName)` as the claim
states. -/
theorem C7_counterexample :
    template_str ("mutation") ("setName") (input_tree [("newName", some .leaf)]) =
      "mutation set_name(new_name)" ∧
    template_str ("mutation") ("setName") (input_tree [("newName", some .leaf)]) ≠
      "mutation setName(newName)" := by
  constructor
  · rfl
  · decide

/-- Claim C7 (amended): the signature string is the operation kind, the
snake-cased wire name, then the parenthesized snake-cased argument names (the
parentheses omitted when there are none): a no-argument query wire-named
`ping` gives `query ping`, and a mutation wire-named `setName` taking
`newName` gives `mutation set_name(new_name)`. -/
theorem C7_signature_snake_cased :
    template_str ("query") ("ping") (input_tree []) = "query ping" ∧
    template_str ("mutation") ("setName") (input_tree [("newName", some .leaf)]) =
      "mutation set_name(new_name)" := by
  constructor
  · rfl
  · rfl

/-- Claim C9: when a response field's annotation is a `Union`, tree expansion
uses exactly the first member that is not `type(None)` — the field's subtree is
whatever that member expands to, and every other member is ignored. -/
theorem C9_union_uses_first_non_none_member (fieldName : String)
    (args : List PyAnn) (t : PyAnn)
    (h : args.find? (fun a => !a.isNone) = some t) :
    unwrap_strawberry_type (PyAnn.cls [(fieldName, PyAnn.union args)]) =
      (unwrap_strawberry_type t).map
        (fun sub => FieldTree.node [(toCamelCase fieldName, sub)]) := by
  have hfirst := unwrapFirstNonNone_eq_of_find args t h
  rw [unwrap_strawberry_type, unwrapAnnotFields, unwrapFieldAnnot, hfirst]
  cases unwrap_strawberry_type t with
  | error e => rfl
  | ok sub => rfl

/-- Claim C9, witness: a field annotated `Union[None, A, B]` (with
`A = {a: int}` and `B = {b: int}`) expands to `A`'s structure only; `B` is
silently ignored. -/
theorem C9_witness :
    ([PyAnn.noneType, PyAnn.cls [("a", PyAnn.scalar "int")],
        PyAnn.cls [("b", PyAnn.scalar "int")]].find? (fun a => !a.isNone) =
      some (PyAnn.cls [("a", PyAnn.scalar "int")])) ∧
    unwrap_strawberry_type (PyAnn.cls [("field",
        PyAnn.union [PyAnn.noneType, PyAnn.cls [("a", PyAnn.scalar "int")],
          PyAnn.cls [("b", PyAnn.scalar "int")]])]) =
      (unwrap_strawberry_type (PyAnn.cls [("a", PyAnn.scalar "int")])).map
        (fun sub => FieldTree.node [(toCamelCase ("field"), sub)]) :=
  ⟨by rfl, C9_union_uses_first_non_none_member ("field") _ _ (by rfl)⟩

/-- Claim C10: `serialize_scalar` returns an enum member's raw `.value`
unchanged — its "is a string" status is exactly that of the raw value, and for
the member with value `5` the result is the integer `5`, not a string — while
every other supported scalar case (`str`, `int`, `float`, `bool`, `None`,
`UNSET`, `datetime`) returns a string. -/
theorem C10_enum_raw_value_unchanged :
    (∀ m : PyEnumMember, serialize_scalar (.enum m) = m.value) ∧
    (∀ m : PyEnumMember, (serialize_scalar (.enum m)).isStr = m.value.isStr) ∧
    serialize_scalar (.enum ⟨.pyint 5⟩) = .pyint 5 ∧
    (serialize_scalar (.enum ⟨.pyint 5⟩)).isStr = false ∧
    (∀ s, (serialize_scalar (.str s)).isStr = true) ∧
    (∀ n, (serialize_scalar (.int n)).isStr = true) ∧
    (∀ r, (serialize_scalar (.float r)).isStr = true) ∧
    (∀ b, (serialize_scalar (.bool b)).isStr = true) ∧
    (serialize_scalar .pynone).isStr = true ∧
    (serialize_scalar .unset).isStr = true ∧
    (∀ iso, (serialize_scalar (.datetime iso)).isStr = true) :=
  ⟨fun _ => rfl, fun _ => rfl, rfl, rfl, fun _ => rfl, fun _ => rfl,
    fun _ => rfl, fun _ => rfl, rfl, rfl, fun _ => rfl⟩

end StrawberryAutograph
